import Mathlib

/-!
# Verification of the payment-binder provider layer

Shallow embedding of `src/payment-binder/providers/` (schemas.py,
base_provider.py, paddle.py, razorpay.py) and proofs about the
transport retry policy, header construction, billing-cycle mapping,
and the adapters' response normalization.

Python values decoded from JSON are modelled by `JValue`; Python's
`None` is identified with `JValue.null` (JSON `null` decodes to `None`,
and `dict.get` of a missing key also yields `None`, exactly as in
CPython). Operations that can raise an uncaught exception return
`Option`, with `none` standing for the raise.
-/

/-- A decoded JSON value / plain Python value. `null` doubles as Python `None`. -/
inductive JValue where
  | null
  | bool (b : Bool)
  | num (n : Int)
  | str (s : String)
  | arr (xs : List JValue)
  | obj (fields : List (String × JValue))
deriving Repr

/-- Association-list lookup, the model of Python `dict` access (first binding wins;
real dicts have unique keys so this is faithful). -/
def alistGet? {α : Type} (d : List (String × α)) (k : String) : Option α :=
  (d.find? (fun p => p.1 == k)).map (·.2)

/-- Python `d.get(k)` on a dict: the stored value, or `None` when the key is absent. -/
def dictGet (d : List (String × JValue)) (k : String) : JValue :=
  (alistGet? d k).getD .null

/-- Python `d.get(k, default)` on a dict. -/
def dictGetD (d : List (String × JValue)) (k : String) (default : JValue) : JValue :=
  (alistGet? d k).getD default

/-- Python `v.get(k)` where `v` is a decoded JSON value: raises (`none`)
unless `v` is a dict. -/
def pyGet (v : JValue) (k : String) : Option JValue :=
  match v with
  | .obj fs => some (dictGet fs k)
  | _ => none

/-- Python `v.get(k, default)` where `v` is a decoded JSON value. -/
def pyGetD (v : JValue) (k : String) (default : JValue) : Option JValue :=
  match v with
  | .obj fs => some (dictGetD fs k default)
  | _ => none

/-- Python `v[k]` bracket indexing on a decoded JSON value: `KeyError` /
`TypeError` (`none`) unless `v` is a dict holding the key. -/
def jKey (v : JValue) (k : String) : Option JValue :=
  match v with
  | .obj fs => alistGet? fs k
  | _ => none

/-- Python `v[0]`: the first element when `v` is a non-empty list, otherwise a raise. -/
def jIndex0 (v : JValue) : Option JValue :=
  match v with
  | .arr (x :: _) => some x
  | _ => none

/-- Python truthiness of a decoded JSON value. -/
def truthy : JValue → Bool
  | .null => false
  | .bool b => b
  | .num n => n != 0
  | .str s => s != ""
  | .arr xs => !xs.isEmpty
  | .obj fs => !fs.isEmpty

/-- Python `s.lower()` (the cycle words involved are ASCII, where
`str.lower` is exactly per-character lowercasing). -/
def pyLower (s : String) : String := String.mk (s.data.map Char.toLower)

/-! ## schemas.py -/

/-- Model of `AuthMethod(str, Enum)` from schemas.py. -/
inductive AuthMethod where
  | basic
  | bearer
  | apiKey
deriving DecidableEq, Repr

/-- The string value of each `AuthMethod` member (`BASIC = "Basic"`,
`BEARER = "Bearer"`, `API_KEY = "ApiKey"`); this is what the f-string
interpolation of a `str`-mixin enum member produces. -/
def AuthMethod.value : AuthMethod → String
  | .basic => "Basic"
  | .bearer => "Bearer"
  | .apiKey => "ApiKey"

/-- Model of `BillingCycle(str, Enum)` from schemas.py: the canonical billing cycles. -/
inductive BillingCycle where
  | daily
  | weekly
  | monthly
  | yearly
deriving DecidableEq, Repr

/-- The wire value of each `BillingCycle` member from schemas.py
(`DAILY = "day"`, `WEEKLY = "week"`, `MONTHLY = "month"`, `YEARLY = "year"`). -/
def BillingCycle.value : BillingCycle → String
  | .daily => "day"
  | .weekly => "week"
  | .monthly => "month"
  | .yearly => "year"

/-- A value stored in a normalized `data` dict: either a plain decoded
value passed through from the provider, or a Python `datetime` produced
by `datetime.fromtimestamp(_, tz=timezone.utc)`, modelled by its Unix
epoch seconds. -/
inductive FieldValue where
  | jv (v : JValue)
  | dt (epochSeconds : Int)
deriving Repr

/-- Model of `APIResponse` from schemas.py: the standardized (normalized) result
envelope every adapter operation returns. -/
structure APIResponse where
  success : Bool
  data : Option (List (String × FieldValue))
  error : Option String
  rawResponse : Option JValue
deriving Repr

/-! ## exceptions.py (not under src/) -/

/-- Model of `APIError` as raised by `BaseAPIClient._make_request`: either an
HTTP-status failure carrying status code and response body text, or a
transport-level failure carrying a message. -/
inductive APIError where
  | statusError (message : String) (statusCode : Nat) (responseText : String)
  | requestError (message : String)
deriving DecidableEq, Repr

/-- Modelled from the spec: exceptions.py is not under src/, so the
`str(e)` the adapters store in the `error` field is modelled as the
failure message the error was constructed with ("the adapter catches it
and returns a NormalizedResult with success false and error set to the message"). -/
def APIError.toMessage : APIError → String
  | .statusError m _ _ => m
  | .requestError m => m

/-! ## base_provider.py: headers -/

/-- Model of `BaseAPIClient._build_headers`: a JSON content-type header,
plus an Authorization header interpolating the auth scheme and secret
for Basic/Bearer, or an X-Api-Key header carrying the raw secret for
ApiKey. -/
def build_headers (auth : AuthMethod) (apiSecret : String) : List (String × String) :=
  let headers := [("Content-Type", "application/json")]
  match auth with
  | .basic => headers ++ [("Authorization", AuthMethod.basic.value ++ " " ++ apiSecret)]
  | .bearer => headers ++ [("Authorization", AuthMethod.bearer.value ++ " " ++ apiSecret)]
  | .apiKey => headers ++ [("X-Api-Key", apiSecret)]

/-! ## base_provider.py: the transport policy `_make_request` -/

/-- One HTTP response as seen by `_make_request`: the status code, the
body text (`response.text`), and the result of `response.json()`
(`none` when the body is not decodable JSON). -/
structure HttpResponse where
  statusCode : Nat
  text : String
  decoded : Option JValue

/-- The outcome of one `client.request(...)` call: a response, or an
`httpx.RequestError` (connection-level failure) with its message. -/
inductive AttemptResult where
  | ok (r : HttpResponse)
  | requestError (msg : String)

/-- Model of `response.status_code in (200, 201, 202)`. -/
def isSuccessStatus (n : Nat) : Bool :=
  n == 200 || n == 201 || n == 202

/-- How one execution of `_make_request` ends. -/
inductive ReqOutcome where
  | returned (j : JValue)
  | apiError (e : APIError)
  | decodeFailure
  | fellThrough
deriving Repr

/-- The loop body of `_make_request`, mirrored attempt by attempt.
`oracle i` is the outcome of the i-th issued HTTP call (1-based).
`attempt` is the Python `attempt` counter at the top of the loop; `fuel`
is `retries - attempt`, so `fuel = 0` exactly when the `while attempt <
retries` guard fails and the function falls off the end returning
`None` (`fellThrough`). Returns the outcome, the final value of the
`attempt` counter, and the list of backoff sleeps performed, in order. -/
def makeRequestGo (oracle : Nat → AttemptResult) (retries : Nat) (backoff : ℚ) :
    Nat → Nat → ReqOutcome × Nat × List ℚ
  | attempt, 0 => (.fellThrough, attempt, [])
  | attempt, fuel + 1 =>
    let a := attempt + 1
    match oracle a with
    | .ok r =>
      if isSuccessStatus r.statusCode then
        match r.decoded with
        | some j => (.returned j, a, [])
        | none => (.decodeFailure, a, [])
      else if retries ≤ a then
        (.apiError (.statusError "API call failed after retries" r.statusCode r.text), a, [])
      else
        makeRequestGo oracle retries backoff a fuel
    | .requestError msg =>
      if a < retries then
        let rest := makeRequestGo oracle retries backoff a fuel
        (rest.1, rest.2.1, backoff * 2 ^ (a - 1) :: rest.2.2)
      else
        (.apiError (.requestError ("Request error after retries: " ++ msg)), a, [])

/-- Model of `BaseAPIClient._make_request` with the given retry count and backoff
factor: the Python loop starts with `attempt = 0`, so the initial fuel
`retries - attempt` is `retries`. -/
def makeRequest (oracle : Nat → AttemptResult) (retries : Nat) (backoff : ℚ) :
    ReqOutcome × Nat × List ℚ :=
  makeRequestGo oracle retries backoff 0 retries

/-- An attempt whose outcome makes the loop continue (or raise at the
end): a response with a non-success status, or a transport error. -/
def attemptFails : AttemptResult → Bool
  | .ok r => !isSuccessStatus r.statusCode
  | .requestError _ => true

/-- The backoff sleeps the policy owes for attempts `lo, lo+1, ..., k-1`:
one sleep of `backoff * 2^(i-1)` for each transport-level failure at
attempt `i`, none for HTTP-status failures. -/
def transportSleeps (oracle : Nat → AttemptResult) (backoff : ℚ) (lo k : Nat) : List ℚ :=
  (List.range' lo (k - lo)).filterMap fun i =>
    match oracle i with
    | .requestError _ => some (backoff * 2 ^ (i - 1))
    | .ok _ => none

/-- The `APIError` surfaced when the final attempt fails: status code and
body text for an HTTP-status failure, the exception message for a
transport failure. -/
def lastAttemptError : AttemptResult → ReqOutcome
  | .ok r => .apiError (.statusError "API call failed after retries" r.statusCode r.text)
  | .requestError msg => .apiError (.requestError ("Request error after retries: " ++ msg))

/-! ## Adapter result constructors

Every adapter operation builds its result through exactly one of the two
source patterns `APIResponse(success=True, data=..., raw_response=...)`
and `APIResponse(success=False, error=str(e))`. -/

/-- Construction `APIResponse(success=True, data=..., raw_response=...)`. -/
def successResponse (data : List (String × FieldValue)) (raw : JValue) : APIResponse :=
  { success := true, data := some data, error := none, rawResponse := some raw }

/-- Construction `APIResponse(success=False, error=str(e))` — the uniform `except
APIError` branch of every adapter operation. -/
def failureResponse (e : APIError) : APIResponse :=
  { success := false, data := none, error := some e.toMessage, rawResponse := none }

/-! ## paddle.py: PaddleClient

Each operation is a function of the outcome(s) of its
`_make_request` call(s): `.ok body` when the request layer returned a
decoded JSON body, `.error e` when it raised `APIError`. The result is
`none` when the operation raises an exception other than `APIError`
(attribute/key errors while reading the response). -/

/-- Model of `PaddleClient.create_transaction` (response handling). -/
def paddle_create_transaction (o : Except APIError JValue) : Option APIResponse :=
  match o with
  | .error e => some (failureResponse e)
  | .ok response =>
    match pyGetD response "data" (.obj []) with
    | none => none
    | some d1 =>
      match pyGet d1 "id" with
      | none => none
      | some tid =>
        match pyGetD response "data" (.obj []) with
        | none => none
        | some d2 =>
          match pyGet d2 "checkout_url" with
          | none => none
          | some curl =>
            some (successResponse
              [("transaction_id", .jv tid), ("checkout_url", .jv curl)] response)

/-- Model of `PaddleClient.create_plan` (response handling): first request creates
the product, second the price; `product["data"]["id"]` and
`price["data"]["id"]` are bracket accesses whose `KeyError`/`TypeError`
is not caught. The price request is only issued after the product
request succeeded and its id was read (it appears in the price payload). -/
def paddle_create_plan (o1 o2 : Except APIError JValue) : Option APIResponse :=
  match o1 with
  | .error e => some (failureResponse e)
  | .ok product =>
    match jKey product "data" with
    | none => none
    | some pd =>
      match jKey pd "id" with
      | none => none
      | some productId =>
        match o2 with
        | .error e => some (failureResponse e)
        | .ok price =>
          match jKey price "data" with
          | none => none
          | some prd =>
            match jKey prd "id" with
            | none => none
            | some priceId =>
              some (successResponse
                [("product_id", .jv productId), ("price_id", .jv priceId)]
                (.obj [("product", product), ("price", price)]))

/-- Model of `PaddleClient._map_billing_cycle`: `mapping.get(billing_cycle.lower(), "month")`. -/
def paddle_map_billing_cycle (billing_cycle : String) : String :=
  let l := pyLower billing_cycle
  if l = "daily" then "day"
  else if l = "weekly" then "week"
  else if l = "monthly" then "month"
  else if l = "yearly" then "year"
  else "month"

/-- Model of `PaddleClient.get_transaction_invoice` (response handling). -/
def paddle_get_transaction_invoice (o : Except APIError JValue) : Option APIResponse :=
  match o with
  | .error e => some (failureResponse e)
  | .ok response =>
    match pyGetD response "data" (.obj []) with
    | none => none
    | some d1 =>
      match pyGet d1 "invoice_url" with
      | none => none
      | some iurl =>
        match pyGetD response "data" (.obj []) with
        | none => none
        | some d2 =>
          match pyGet d2 "id" with
          | none => none
          | some iid =>
            some (successResponse
              [("invoice_url", .jv iurl), ("invoice_id", .jv iid)] response)

/-- Model of `PaddleClient._normalize_subscription_details` on the
`subscription_data` dict: every field is read with `.get` (default
`None`), except `plan_id`, which indexes
the first element of `subscription_data.get` of "items" (default: a
one-element list holding an empty dict), then `.get` of "price_id", when
`subscription_data.get("items")` is truthy and is `None` otherwise. -/
def paddle_normalize_subscription_details (d : List (String × JValue)) :
    Option (List (String × FieldValue)) :=
  let planId? : Option JValue :=
    if truthy (dictGet d "items") then
      match jIndex0 (dictGetD d "items" (.arr [.obj []])) with
      | none => none
      | some first => pyGet first "price_id"
    else
      some .null
  match planId? with
  | none => none
  | some planId =>
    some [("id", .jv (dictGet d "id")),
          ("status", .jv (dictGet d "status")),
          ("created_at", .jv (dictGet d "created_at")),
          ("next_billing_date", .jv (dictGet d "next_billed_at")),
          ("plan_id", .jv planId),
          ("customer_id", .jv (dictGet d "customer_id"))]

/-- Model of `PaddleClient.get_subscription_details` (response handling):
`subscription_data = response.get("data", {})`, then normalization. -/
def paddle_get_subscription_details (o : Except APIError JValue) : Option APIResponse :=
  match o with
  | .error e => some (failureResponse e)
  | .ok response =>
    match pyGetD response "data" (.obj []) with
    | none => none
    | some sd =>
      match sd with
      | .obj fields =>
        match paddle_normalize_subscription_details fields with
        | none => none
        | some normalized => some (successResponse normalized response)
      | _ => none

/-- Model of `PaddleClient.end_subscription` (response handling): the data dict is
built from the operation's own `subscription_id` argument and the
constant status `"cancelled"`. -/
def paddle_end_subscription (subscription_id : String) (o : Except APIError JValue) :
    Option APIResponse :=
  match o with
  | .error e => some (failureResponse e)
  | .ok response =>
    some (successResponse
      [("subscription_id", .jv (.str subscription_id)),
       ("status", .jv (.str "cancelled"))] response)

/-- Model of `PaddleClient.create_customer` (response handling). -/
def paddle_create_customer (o : Except APIError JValue) : Option APIResponse :=
  match o with
  | .error e => some (failureResponse e)
  | .ok response =>
    match pyGetD response "data" (.obj []) with
    | none => none
    | some d1 =>
      match pyGet d1 "id" with
      | none => none
      | some cid =>
        some (successResponse [("customer_id", .jv cid)] response)

/-! ## razorpay.py: RazorpayClient -/

/-- Model of `RazorpayClient.create_customer` (response handling): Razorpay
responses are flat, so the id is `response.get("id")`. -/
def rz_create_customer (o : Except APIError JValue) : Option APIResponse :=
  match o with
  | .error e => some (failureResponse e)
  | .ok response =>
    match pyGet response "id" with
    | none => none
    | some cid =>
      some (successResponse [("customer_id", .jv cid)] response)

/-- Model of `RazorpayClient.create_transaction` (response handling): first calls
`create_customer`; a non-success customer result is returned as-is, a
success result has its `customer_id` read (for the subscription
payload), then the `/subscriptions` request is made. -/
def rz_create_transaction (oCustomer oSubscription : Except APIError JValue) :
    Option APIResponse :=
  match rz_create_customer oCustomer with
  | none => none
  | some customer_response =>
    if !customer_response.success then
      some customer_response
    else
      match customer_response.data with
      | none => none
      | some cdata =>
        let _customer_id := alistGet? cdata "customer_id"
        match oSubscription with
        | .error e => some (failureResponse e)
        | .ok response =>
          match pyGet response "id" with
          | none => none
          | some sid =>
            match pyGet response "invoice_id" with
            | none => none
            | some iid =>
              match pyGet response "short_url" with
              | none => none
              | some surl =>
                some (successResponse
                  [("subscription_id", .jv sid), ("invoice_id", .jv iid),
                   ("checkout_url", .jv surl)] response)

/-- Model of `RazorpayClient.create_plan` (response handling). -/
def rz_create_plan (o : Except APIError JValue) : Option APIResponse :=
  match o with
  | .error e => some (failureResponse e)
  | .ok response =>
    match pyGet response "id" with
    | none => none
    | some pid =>
      some (successResponse [("plan_id", .jv pid)] response)

/-- Model of `RazorpayClient._map_billing_cycle`: `mapping.get(billing_cycle.lower(), "monthly")`. -/
def razorpay_map_billing_cycle (billing_cycle : String) : String :=
  let l := pyLower billing_cycle
  if l = "daily" then "daily"
  else if l = "weekly" then "weekly"
  else if l = "monthly" then "monthly"
  else if l = "yearly" then "yearly"
  else "monthly"

/-- Model of `RazorpayClient.get_transaction_invoice` (response handling). -/
def rz_get_transaction_invoice (o : Except APIError JValue) : Option APIResponse :=
  match o with
  | .error e => some (failureResponse e)
  | .ok response =>
    match pyGet response "short_url" with
    | none => none
    | some surl =>
      match pyGet response "id" with
      | none => none
      | some iid =>
        match pyGet response "status" with
        | none => none
        | some st =>
          some (successResponse
            [("invoice_url", .jv surl), ("invoice_id", .jv iid),
             ("status", .jv st)] response)

/-- Model of `RazorpayClient.issue_invoice` (response handling). -/
def rz_issue_invoice (o : Except APIError JValue) : Option APIResponse :=
  match o with
  | .error e => some (failureResponse e)
  | .ok response =>
    match pyGet response "id" with
    | none => none
    | some iid =>
      match pyGet response "status" with
      | none => none
      | some st =>
        some (successResponse [("invoice_id", .jv iid), ("status", .jv st)] response)

/-- Model of `RazorpayClient.draft_invoice` (response handling). -/
def rz_draft_invoice (o : Except APIError JValue) : Option APIResponse :=
  match o with
  | .error e => some (failureResponse e)
  | .ok response =>
    match pyGet response "id" with
    | none => none
    | some iid =>
      match pyGet response "status" with
      | none => none
      | some st =>
        some (successResponse [("invoice_id", .jv iid), ("status", .jv st)] response)

/-- Model of `datetime.fromtimestamp(v, tz=timezone.utc)` applied to a decoded
value: defined for numbers (yielding the UTC instant at that many epoch
seconds), a raise (`none`) otherwise. -/
def fromtimestampUtc : JValue → Option Int
  | .num n => some n
  | _ => none

/-- Model of `RazorpayClient._normalize_subscription_details` on the raw
subscription dict: `created_at` and `next_billing_date` come from
`datetime.fromtimestamp(subscription_data.get(key, 0), tz=timezone.utc)`
with keys `"created_at"` and `"current_end"` and default `0`; the other
fields are `.get` pass-throughs. -/
def rz_normalize_subscription_details (d : List (String × JValue)) :
    Option (List (String × FieldValue)) :=
  match fromtimestampUtc (dictGetD d "created_at" (.num 0)) with
  | none => none
  | some createdAt =>
    match fromtimestampUtc (dictGetD d "current_end" (.num 0)) with
    | none => none
    | some nextBilling =>
      some [("id", .jv (dictGet d "id")),
            ("status", .jv (dictGet d "status")),
            ("created_at", .dt createdAt),
            ("next_billing_date", .dt nextBilling),
            ("plan_id", .jv (dictGet d "plan_id")),
            ("customer_id", .jv (dictGet d "customer_id"))]

/-- Model of `RazorpayClient.get_subscription_details` (response handling): the
whole response body is the subscription dict. -/
def rz_get_subscription_details (o : Except APIError JValue) : Option APIResponse :=
  match o with
  | .error e => some (failureResponse e)
  | .ok response =>
    match response with
    | .obj fields =>
      match rz_normalize_subscription_details fields with
      | none => none
      | some normalized => some (successResponse normalized response)
    | _ => none

/-- Model of `RazorpayClient.end_subscription` (response handling): the data dict
holds the operation's own `subscription_id` argument and the response's
`status`. -/
def rz_end_subscription (subscription_id : String) (o : Except APIError JValue) :
    Option APIResponse :=
  match o with
  | .error e => some (failureResponse e)
  | .ok response =>
    match pyGet response "status" with
    | none => none
    | some st =>
      some (successResponse
        [("subscription_id", .jv (.str subscription_id)), ("status", .jv st)] response)

/-- Model of `RazorpayClient.get_payment_downtimes` (response handling). -/
def rz_get_payment_downtimes (o : Except APIError JValue) : Option APIResponse :=
  match o with
  | .error e => some (failureResponse e)
  | .ok response =>
    match pyGetD response "items" (.arr []) with
    | none => none
    | some items =>
      some (successResponse [("downtimes", .jv items)] response)

/-! ## Billing-cycle semantics -/

/-- The four canonical billing-cycle values as the adapters' mapping
tables and the spec spell them (spec: CanonicalBillingCycle enumerated
as daily, weekly, monthly, yearly). -/
def canonicalCycles : List String := ["daily", "weekly", "monthly", "yearly"]

/-- Modelled from the spec: no provider-vocabulary-to-canonical (reverse)
cycle map exists under src/ (the spec says cycles are "mapped
bidirectionally to/from each provider's cycle vocabulary (e.g.,
\x22month\x22/\x22monthly\x22)"), and `PlanSchema` (the type of the
mapped input) is also not under src/. `cycleSem` interprets a cycle word
from either vocabulary — the schemas.py `BillingCycle` wire values
("day", "week", "month", "year") and the adapter mapping-table keys /
Razorpay values ("daily", "weekly", "monthly", "yearly") — as the
canonical cycle it denotes. -/
def cycleSem (s : String) : Option BillingCycle :=
  if s = "day" ∨ s = "daily" then some .daily
  else if s = "week" ∨ s = "weekly" then some .weekly
  else if s = "month" ∨ s = "monthly" then some .monthly
  else if s = "year" ∨ s = "yearly" then some .yearly
  else none

/-- Claim C4: each of the four canonical billing-cycle values round-trips
through either provider's `_map_billing_cycle` vocabulary back to a
semantically equal cycle, and any unrecognized input maps to the
provider's monthly value. -/
theorem billing_cycle_roundtrip :
    (∀ c ∈ canonicalCycles,
        (cycleSem c).isSome = true ∧
        cycleSem (paddle_map_billing_cycle c) = cycleSem c ∧
        cycleSem (razorpay_map_billing_cycle c) = cycleSem c) ∧
    (∀ s, pyLower s ∉ canonicalCycles →
        paddle_map_billing_cycle s = "month" ∧
        razorpay_map_billing_cycle s = "monthly") := by
  constructor
  · decide
  · intro s hs
    simp only [canonicalCycles, List.mem_cons, List.not_mem_nil, or_false, not_or] at hs
    obtain ⟨h1, h2, h3, h4⟩ := hs
    constructor
    · simp [paddle_map_billing_cycle, h1, h2, h3, h4]
    · simp [razorpay_map_billing_cycle, h1, h2, h3, h4]

/-- Witness for C4 at the concrete cycle "daily" and the unrecognized
input "fortnightly". -/
theorem billing_cycle_roundtrip_witness :
    cycleSem (paddle_map_billing_cycle "daily") = cycleSem "daily" ∧
    paddle_map_billing_cycle "fortnightly" = "month" :=
  ⟨(billing_cycle_roundtrip.1 "daily" (by decide)).2.1,
   (billing_cycle_roundtrip.2 "fortnightly" (by decide)).1⟩

/-- Claim C8: header construction is a pure function of the auth method
and secret; Bearer yields an Authorization header "Bearer secret",
ApiKey yields the dedicated X-Api-Key header and no Authorization
header, and a JSON content-type header is always present. -/
theorem build_headers_spec :
    (∀ s, alistGet? (build_headers .bearer s) "Authorization" = some ("Bearer " ++ s)) ∧
    alistGet? (build_headers .bearer "abc") "Authorization" = some "Bearer abc" ∧
    (∀ s, alistGet? (build_headers .apiKey s) "X-Api-Key" = some s) ∧
    alistGet? (build_headers .apiKey "abc") "Authorization" = none ∧
    (∀ auth s, alistGet? (build_headers auth s) "Content-Type" = some "application/json") := by
  refine ⟨fun s => rfl, rfl, fun s => rfl, rfl, fun auth s => ?_⟩
  cases auth <;> rfl

/-- Claim C7 (code behavior at the failing input): with `retries = 0` the
`while attempt < retries` loop never runs, so `_make_request` makes zero
attempts, performs no sleeps, raises nothing, and falls off the end
returning `None` — it neither rejects the call nor performs one attempt. -/
theorem make_request_zero_retries (oracle : Nat → AttemptResult) (backoff : ℚ) :
    makeRequest oracle 0 backoff = (.fellThrough, 0, []) := rfl

/-- Claim C10: Razorpay subscription normalization always populates both
`created_at` and `next_billing_date` as datetimes; when the payload's
"created_at" / "current_end" field is absent, the `.get(key, 0)` default
makes the corresponding field `datetime.fromtimestamp(0, tz=utc)`, the
Unix epoch, rather than leaving it absent. -/
theorem rz_normalize_populates_timestamps (d : List (String × JValue))
    (out : List (String × FieldValue))
    (h : rz_normalize_subscription_details d = some out) :
    (∃ n, alistGet? out "created_at" = some (.dt n)) ∧
    (∃ m, alistGet? out "next_billing_date" = some (.dt m)) ∧
    (alistGet? d "created_at" = none → alistGet? out "created_at" = some (.dt 0)) ∧
    (alistGet? d "current_end" = none → alistGet? out "next_billing_date" = some (.dt 0)) := by
  unfold rz_normalize_subscription_details at h
  split at h
  · exact Option.noConfusion h
  · rename_i ca hca
    split at h
    · exact Option.noConfusion h
    · rename_i nb hnb
      rw [Option.some_inj] at h
      subst h
      refine ⟨⟨ca, rfl⟩, ⟨nb, rfl⟩, ?_, ?_⟩
      · intro habs
        have hca0 : ca = 0 := by
          rw [dictGetD, habs] at hca
          simpa [fromtimestampUtc, eq_comm] using hca
        subst hca0
        rfl
      · intro habs
        have hnb0 : nb = 0 := by
          rw [dictGetD, habs] at hnb
          simpa [fromtimestampUtc, eq_comm] using hnb
        subst hnb0
        rfl

/-- Witness for C10 on the empty subscription payload (both timestamp
fields absent). -/
theorem rz_normalize_populates_timestamps_witness :
    (∃ n, alistGet? [("id", FieldValue.jv .null), ("status", .jv .null),
        ("created_at", .dt 0), ("next_billing_date", .dt 0),
        ("plan_id", .jv .null), ("customer_id", .jv .null)] "created_at" = some (.dt n)) ∧
    (∃ m, alistGet? [("id", FieldValue.jv .null), ("status", .jv .null),
        ("created_at", .dt 0), ("next_billing_date", .dt 0),
        ("plan_id", .jv .null), ("customer_id", .jv .null)] "next_billing_date" = some (.dt m)) ∧
    (alistGet? ([] : List (String × JValue)) "created_at" = none →
      alistGet? [("id", FieldValue.jv .null), ("status", .jv .null),
        ("created_at", .dt 0), ("next_billing_date", .dt 0),
        ("plan_id", .jv .null), ("customer_id", .jv .null)] "created_at" = some (.dt 0)) ∧
    (alistGet? ([] : List (String × JValue)) "current_end" = none →
      alistGet? [("id", FieldValue.jv .null), ("status", .jv .null),
        ("created_at", .dt 0), ("next_billing_date", .dt 0),
        ("plan_id", .jv .null), ("customer_id", .jv .null)] "next_billing_date" = some (.dt 0)) :=
  rz_normalize_populates_timestamps [] _ rfl

/-- Claim C9 counterexample: on a Paddle payload supplying an ISO-8601
`created_at` string, Paddle's normalization returns the string
unconverted (still a raw provider value), while on a Razorpay payload
supplying epoch seconds the normalization produces a datetime — so the
two adapters do not converge on one single absolute time
representation, and Paddle performs no conversion at all. -/
theorem timestamps_not_uniformly_converted :
    paddle_normalize_subscription_details [("created_at", .str "2023-05-01T10:00:00Z")] =
      some [("id", .jv .null), ("status", .jv .null),
            ("created_at", .jv (.str "2023-05-01T10:00:00Z")),
            ("next_billing_date", .jv .null), ("plan_id", .jv .null),
            ("customer_id", .jv .null)] ∧
    rz_normalize_subscription_details [("created_at", .num 1682935200)] =
      some [("id", .jv .null), ("status", .jv .null),
            ("created_at", .dt 1682935200),
            ("next_billing_date", .dt 0), ("plan_id", .jv .null),
            ("customer_id", .jv .null)] :=
  ⟨rfl, rfl⟩

/-- Claim C9 as amended: Razorpay's subscription normalization always
converts `created_at` and `next_billing_date` to absolute UTC datetimes,
while Paddle's passes both timestamp fields through unchanged from the
provider payload (an ISO-8601 string stays a string); the representation
is uniform only within each adapter, not across adapters. -/
theorem timestamp_normalization_per_adapter (d : List (String × JValue))
    (out : List (String × FieldValue)) :
    (rz_normalize_subscription_details d = some out →
      (∃ n, alistGet? out "created_at" = some (.dt n)) ∧
      (∃ m, alistGet? out "next_billing_date" = some (.dt m))) ∧
    (paddle_normalize_subscription_details d = some out →
      alistGet? out "created_at" = some (.jv (dictGet d "created_at")) ∧
      alistGet? out "next_billing_date" = some (.jv (dictGet d "next_billed_at"))) := by
  constructor
  · intro h
    unfold rz_normalize_subscription_details at h
    split at h
    · exact Option.noConfusion h
    · rename_i ca hca
      split at h
      · exact Option.noConfusion h
      · rename_i nb hnb
        rw [Option.some_inj] at h
        subst h
        exact ⟨⟨ca, rfl⟩, ⟨nb, rfl⟩⟩
  · intro h
    simp only [paddle_normalize_subscription_details] at h
    repeat split at h
    all_goals first
      | exact Option.noConfusion h
      | (rw [Option.some_inj] at h; subst h; exact ⟨rfl, rfl⟩)

/-- Witness for the amended C9 on concrete payloads for each adapter. -/
theorem timestamp_normalization_per_adapter_witness :
    ((∃ n, alistGet? [("id", FieldValue.jv .null), ("status", .jv .null),
        ("created_at", .dt 7), ("next_billing_date", .dt 0),
        ("plan_id", .jv .null), ("customer_id", .jv .null)] "created_at" = some (.dt n)) ∧
     (∃ m, alistGet? [("id", FieldValue.jv .null), ("status", .jv .null),
        ("created_at", .dt 7), ("next_billing_date", .dt 0),
        ("plan_id", .jv .null), ("customer_id", .jv .null)] "next_billing_date" = some (.dt m))) ∧
    (alistGet? [("id", FieldValue.jv .null), ("status", .jv .null),
        ("created_at", .jv (.str "2023-05-01T10:00:00Z")),
        ("next_billing_date", .jv .null), ("plan_id", .jv .null),
        ("customer_id", .jv .null)] "created_at" =
      some (.jv (dictGet [("created_at", .str "2023-05-01T10:00:00Z")] "created_at")) ∧
     alistGet? [("id", FieldValue.jv .null), ("status", .jv .null),
        ("created_at", .jv (.str "2023-05-01T10:00:00Z")),
        ("next_billing_date", .jv .null), ("plan_id", .jv .null),
        ("customer_id", .jv .null)] "next_billing_date" =
      some (.jv (dictGet [("created_at", .str "2023-05-01T10:00:00Z")] "next_billed_at"))) :=
  ⟨(timestamp_normalization_per_adapter [("created_at", .num 7)] _).1 rfl,
   (timestamp_normalization_per_adapter [("created_at", .str "2023-05-01T10:00:00Z")] _).2 rfl⟩

/-! ## Shape of adapter results

Every adapter operation that returns (rather than raises) produces
either the uniform failure envelope or the uniform success envelope. -/

lemma paddle_create_transaction_shape (o : Except APIError JValue) (r : APIResponse)
    (h : paddle_create_transaction o = some r) :
    (∃ e, r = failureResponse e) ∨ ∃ d raw, r = successResponse d raw := by
  simp only [paddle_create_transaction] at h
  repeat' split at h
  all_goals first
    | exact Option.noConfusion h
    | exact .inl ⟨_, (Option.some.inj h).symm⟩
    | exact .inr ⟨_, _, (Option.some.inj h).symm⟩

lemma paddle_create_plan_shape (o1 o2 : Except APIError JValue) (r : APIResponse)
    (h : paddle_create_plan o1 o2 = some r) :
    (∃ e, r = failureResponse e) ∨ ∃ d raw, r = successResponse d raw := by
  simp only [paddle_create_plan] at h
  repeat' split at h
  all_goals first
    | exact Option.noConfusion h
    | exact .inl ⟨_, (Option.some.inj h).symm⟩
    | exact .inr ⟨_, _, (Option.some.inj h).symm⟩

lemma paddle_get_transaction_invoice_shape (o : Except APIError JValue) (r : APIResponse)
    (h : paddle_get_transaction_invoice o = some r) :
    (∃ e, r = failureResponse e) ∨ ∃ d raw, r = successResponse d raw := by
  simp only [paddle_get_transaction_invoice] at h
  repeat' split at h
  all_goals first
    | exact Option.noConfusion h
    | exact .inl ⟨_, (Option.some.inj h).symm⟩
    | exact .inr ⟨_, _, (Option.some.inj h).symm⟩

lemma paddle_get_subscription_details_shape (o : Except APIError JValue) (r : APIResponse)
    (h : paddle_get_subscription_details o = some r) :
    (∃ e, r = failureResponse e) ∨ ∃ d raw, r = successResponse d raw := by
  simp only [paddle_get_subscription_details] at h
  repeat' split at h
  all_goals first
    | exact Option.noConfusion h
    | exact .inl ⟨_, (Option.some.inj h).symm⟩
    | exact .inr ⟨_, _, (Option.some.inj h).symm⟩

lemma paddle_end_subscription_shape (sid : String) (o : Except APIError JValue)
    (r : APIResponse) (h : paddle_end_subscription sid o = some r) :
    (∃ e, r = failureResponse e) ∨ ∃ d raw, r = successResponse d raw := by
  simp only [paddle_end_subscription] at h
  repeat' split at h
  all_goals first
    | exact Option.noConfusion h
    | exact .inl ⟨_, (Option.some.inj h).symm⟩
    | exact .inr ⟨_, _, (Option.some.inj h).symm⟩

lemma paddle_create_customer_shape (o : Except APIError JValue) (r : APIResponse)
    (h : paddle_create_customer o = some r) :
    (∃ e, r = failureResponse e) ∨ ∃ d raw, r = successResponse d raw := by
  simp only [paddle_create_customer] at h
  repeat' split at h
  all_goals first
    | exact Option.noConfusion h
    | exact .inl ⟨_, (Option.some.inj h).symm⟩
    | exact .inr ⟨_, _, (Option.some.inj h).symm⟩

lemma rz_create_customer_shape (o : Except APIError JValue) (r : APIResponse)
    (h : rz_create_customer o = some r) :
    (∃ e, r = failureResponse e) ∨ ∃ d raw, r = successResponse d raw := by
  simp only [rz_create_customer] at h
  repeat' split at h
  all_goals first
    | exact Option.noConfusion h
    | exact .inl ⟨_, (Option.some.inj h).symm⟩
    | exact .inr ⟨_, _, (Option.some.inj h).symm⟩

lemma rz_create_transaction_shape (o1 o2 : Except APIError JValue) (r : APIResponse)
    (h : rz_create_transaction o1 o2 = some r) :
    (∃ e, r = failureResponse e) ∨ ∃ d raw, r = successResponse d raw := by
  simp only [rz_create_transaction] at h
  split at h
  · exact Option.noConfusion h
  · rename_i cr hcr
    split at h
    · exact (Option.some.inj h) ▸ rz_create_customer_shape o1 cr hcr
    · repeat' split at h
      all_goals first
        | exact Option.noConfusion h
        | exact .inl ⟨_, (Option.some.inj h).symm⟩
        | exact .inr ⟨_, _, (Option.some.inj h).symm⟩

lemma rz_create_plan_shape (o : Except APIError JValue) (r : APIResponse)
    (h : rz_create_plan o = some r) :
    (∃ e, r = failureResponse e) ∨ ∃ d raw, r = successResponse d raw := by
  simp only [rz_create_plan] at h
  repeat' split at h
  all_goals first
    | exact Option.noConfusion h
    | exact .inl ⟨_, (Option.some.inj h).symm⟩
    | exact .inr ⟨_, _, (Option.some.inj h).symm⟩

lemma rz_get_transaction_invoice_shape (o : Except APIError JValue) (r : APIResponse)
    (h : rz_get_transaction_invoice o = some r) :
    (∃ e, r = failureResponse e) ∨ ∃ d raw, r = successResponse d raw := by
  simp only [rz_get_transaction_invoice] at h
  repeat' split at h
  all_goals first
    | exact Option.noConfusion h
    | exact .inl ⟨_, (Option.some.inj h).symm⟩
    | exact .inr ⟨_, _, (Option.some.inj h).symm⟩

lemma rz_issue_invoice_shape (o : Except APIError JValue) (r : APIResponse)
    (h : rz_issue_invoice o = some r) :
    (∃ e, r = failureResponse e) ∨ ∃ d raw, r = successResponse d raw := by
  simp only [rz_issue_invoice] at h
  repeat' split at h
  all_goals first
    | exact Option.noConfusion h
    | exact .inl ⟨_, (Option.some.inj h).symm⟩
    | exact .inr ⟨_, _, (Option.some.inj h).symm⟩

lemma rz_draft_invoice_shape (o : Except APIError JValue) (r : APIResponse)
    (h : rz_draft_invoice o = some r) :
    (∃ e, r = failureResponse e) ∨ ∃ d raw, r = successResponse d raw := by
  simp only [rz_draft_invoice] at h
  repeat' split at h
  all_goals first
    | exact Option.noConfusion h
    | exact .inl ⟨_, (Option.some.inj h).symm⟩
    | exact .inr ⟨_, _, (Option.some.inj h).symm⟩

lemma rz_get_subscription_details_shape (o : Except APIError JValue) (r : APIResponse)
    (h : rz_get_subscription_details o = some r) :
    (∃ e, r = failureResponse e) ∨ ∃ d raw, r = successResponse d raw := by
  simp only [rz_get_subscription_details] at h
  repeat' split at h
  all_goals first
    | exact Option.noConfusion h
    | exact .inl ⟨_, (Option.some.inj h).symm⟩
    | exact .inr ⟨_, _, (Option.some.inj h).symm⟩

lemma rz_end_subscription_shape (sid : String) (o : Except APIError JValue)
    (r : APIResponse) (h : rz_end_subscription sid o = some r) :
    (∃ e, r = failureResponse e) ∨ ∃ d raw, r = successResponse d raw := by
  simp only [rz_end_subscription] at h
  repeat' split at h
  all_goals first
    | exact Option.noConfusion h
    | exact .inl ⟨_, (Option.some.inj h).symm⟩
    | exact .inr ⟨_, _, (Option.some.inj h).symm⟩

lemma rz_get_payment_downtimes_shape (o : Except APIError JValue) (r : APIResponse)
    (h : rz_get_payment_downtimes o = some r) :
    (∃ e, r = failureResponse e) ∨ ∃ d raw, r = successResponse d raw := by
  simp only [rz_get_payment_downtimes] at h
  repeat' split at h
  all_goals first
    | exact Option.noConfusion h
    | exact .inl ⟨_, (Option.some.inj h).symm⟩
    | exact .inr ⟨_, _, (Option.some.inj h).symm⟩

/-! ## Result-envelope invariants -/

/-- Invariant: `success = false` exactly when `error` is populated and `data`
absent, and `success = true` exactly when `data` is present and `error`
absent. -/
def successErrorInvariant (r : APIResponse) : Prop :=
  (r.success = false ↔ (r.error.isSome = true ∧ r.data = none)) ∧
  (r.success = true ↔ (r.data.isSome = true ∧ r.error = none))

/-- Invariant: `rawResponse` is present exactly on success. -/
def rawResponseInvariant (r : APIResponse) : Prop :=
  (r.success = true → r.rawResponse.isSome = true) ∧
  (r.success = false → r.rawResponse = none)

lemma shape_successErrorInvariant {r : APIResponse}
    (h : (∃ e, r = failureResponse e) ∨ ∃ d raw, r = successResponse d raw) :
    successErrorInvariant r := by
  rcases h with ⟨e, rfl⟩ | ⟨d, raw, rfl⟩ <;>
    simp [successErrorInvariant, failureResponse, successResponse]

lemma shape_rawResponseInvariant {r : APIResponse}
    (h : (∃ e, r = failureResponse e) ∨ ∃ d raw, r = successResponse d raw) :
    rawResponseInvariant r := by
  rcases h with ⟨e, rfl⟩ | ⟨d, raw, rfl⟩ <;>
    simp [rawResponseInvariant, failureResponse, successResponse]

/-- Claim C3: every `APIResponse` an adapter operation returns satisfies
`success = false` iff `error` is populated and `data` absent, and
`success = true` iff `data` is present and `error` absent. -/
theorem normalized_result_success_error_iff
    (o o2 : Except APIError JValue) (sid : String) (r : APIResponse) :
    (paddle_create_transaction o = some r → successErrorInvariant r) ∧
    (paddle_create_plan o o2 = some r → successErrorInvariant r) ∧
    (paddle_get_transaction_invoice o = some r → successErrorInvariant r) ∧
    (paddle_get_subscription_details o = some r → successErrorInvariant r) ∧
    (paddle_end_subscription sid o = some r → successErrorInvariant r) ∧
    (paddle_create_customer o = some r → successErrorInvariant r) ∧
    (rz_create_transaction o o2 = some r → successErrorInvariant r) ∧
    (rz_create_plan o = some r → successErrorInvariant r) ∧
    (rz_get_transaction_invoice o = some r → successErrorInvariant r) ∧
    (rz_issue_invoice o = some r → successErrorInvariant r) ∧
    (rz_draft_invoice o = some r → successErrorInvariant r) ∧
    (rz_get_subscription_details o = some r → successErrorInvariant r) ∧
    (rz_end_subscription sid o = some r → successErrorInvariant r) ∧
    (rz_create_customer o = some r → successErrorInvariant r) ∧
    (rz_get_payment_downtimes o = some r → successErrorInvariant r) :=
  ⟨fun h => shape_successErrorInvariant (paddle_create_transaction_shape o r h),
   fun h => shape_successErrorInvariant (paddle_create_plan_shape o o2 r h),
   fun h => shape_successErrorInvariant (paddle_get_transaction_invoice_shape o r h),
   fun h => shape_successErrorInvariant (paddle_get_subscription_details_shape o r h),
   fun h => shape_successErrorInvariant (paddle_end_subscription_shape sid o r h),
   fun h => shape_successErrorInvariant (paddle_create_customer_shape o r h),
   fun h => shape_successErrorInvariant (rz_create_transaction_shape o o2 r h),
   fun h => shape_successErrorInvariant (rz_create_plan_shape o r h),
   fun h => shape_successErrorInvariant (rz_get_transaction_invoice_shape o r h),
   fun h => shape_successErrorInvariant (rz_issue_invoice_shape o r h),
   fun h => shape_successErrorInvariant (rz_draft_invoice_shape o r h),
   fun h => shape_successErrorInvariant (rz_get_subscription_details_shape o r h),
   fun h => shape_successErrorInvariant (rz_end_subscription_shape sid o r h),
   fun h => shape_successErrorInvariant (rz_create_customer_shape o r h),
   fun h => shape_successErrorInvariant (rz_get_payment_downtimes_shape o r h)⟩

/-- Witness for C3 at a concrete failed `create_transaction` call. -/
theorem normalized_result_success_error_iff_witness :
    successErrorInvariant (failureResponse (.requestError "connection refused")) :=
  (normalized_result_success_error_iff (.error (.requestError "connection refused"))
      (.error (.requestError "connection refused")) "sub_1"
      (failureResponse (.requestError "connection refused"))).1 rfl

/-- Claim C5 counterexample: with a single attempt answered by an HTTP
400 response, `_make_request` does issue the call (final attempt counter
1) and receives the body, surfacing `APIError` with that status and
body — yet the adapter's returned result has `rawResponse = none`, so a
result of an actually-issued call lacks the raw decoded body, contrary
to the claim. -/
theorem raw_response_absent_despite_issued_call :
    makeRequest (fun _ => .ok ⟨400, "invalid request payload", some (.obj [])⟩) 1 (3 / 2) =
      (.apiError (.statusError "API call failed after retries" 400 "invalid request payload"),
        1, []) ∧
    paddle_create_customer
        (.error (.statusError "API call failed after retries" 400 "invalid request payload")) =
      some { success := false, data := none,
             error := some "API call failed after retries", rawResponse := none } :=
  ⟨rfl, rfl⟩

/-- Claim C5 as amended: `rawResponse` holds the provider's raw decoded
body exactly when the operation succeeds; on every failure — transport
failures and HTTP-status failures alike, even though the latter received
a body — the adapters return `APIResponse(success=False, error=str(e))`
with `rawResponse` absent. -/
theorem raw_response_present_iff_success
    (o o2 : Except APIError JValue) (sid : String) (r : APIResponse) :
    (paddle_create_transaction o = some r → rawResponseInvariant r) ∧
    (paddle_create_plan o o2 = some r → rawResponseInvariant r) ∧
    (paddle_get_transaction_invoice o = some r → rawResponseInvariant r) ∧
    (paddle_get_subscription_details o = some r → rawResponseInvariant r) ∧
    (paddle_end_subscription sid o = some r → rawResponseInvariant r) ∧
    (paddle_create_customer o = some r → rawResponseInvariant r) ∧
    (rz_create_transaction o o2 = some r → rawResponseInvariant r) ∧
    (rz_create_plan o = some r → rawResponseInvariant r) ∧
    (rz_get_transaction_invoice o = some r → rawResponseInvariant r) ∧
    (rz_issue_invoice o = some r → rawResponseInvariant r) ∧
    (rz_draft_invoice o = some r → rawResponseInvariant r) ∧
    (rz_get_subscription_details o = some r → rawResponseInvariant r) ∧
    (rz_end_subscription sid o = some r → rawResponseInvariant r) ∧
    (rz_create_customer o = some r → rawResponseInvariant r) ∧
    (rz_get_payment_downtimes o = some r → rawResponseInvariant r) :=
  ⟨fun h => shape_rawResponseInvariant (paddle_create_transaction_shape o r h),
   fun h => shape_rawResponseInvariant (paddle_create_plan_shape o o2 r h),
   fun h => shape_rawResponseInvariant (paddle_get_transaction_invoice_shape o r h),
   fun h => shape_rawResponseInvariant (paddle_get_subscription_details_shape o r h),
   fun h => shape_rawResponseInvariant (paddle_end_subscription_shape sid o r h),
   fun h => shape_rawResponseInvariant (paddle_create_customer_shape o r h),
   fun h => shape_rawResponseInvariant (rz_create_transaction_shape o o2 r h),
   fun h => shape_rawResponseInvariant (rz_create_plan_shape o r h),
   fun h => shape_rawResponseInvariant (rz_get_transaction_invoice_shape o r h),
   fun h => shape_rawResponseInvariant (rz_issue_invoice_shape o r h),
   fun h => shape_rawResponseInvariant (rz_draft_invoice_shape o r h),
   fun h => shape_rawResponseInvariant (rz_get_subscription_details_shape o r h),
   fun h => shape_rawResponseInvariant (rz_end_subscription_shape sid o r h),
   fun h => shape_rawResponseInvariant (rz_create_customer_shape o r h),
   fun h => shape_rawResponseInvariant (rz_get_payment_downtimes_shape o r h)⟩

/-- Witness for the amended C5 at a concrete successful
`end_subscription` call. -/
theorem raw_response_present_iff_success_witness :
    rawResponseInvariant
      (successResponse
        [("subscription_id", .jv (.str "sub_9")), ("status", .jv (.str "cancelled"))]
        (.obj [("ok", .bool true)])) :=
  (raw_response_present_iff_success (.ok (.obj [("ok", .bool true)]))
      (.ok (.obj [])) "sub_9"
      (successResponse
        [("subscription_id", .jv (.str "sub_9")), ("status", .jv (.str "cancelled"))]
        (.obj [("ok", .bool true)]))).2.2.2.2.1 rfl

/-- Claim C1: on every Provider Contract operation of both adapters, if
the request layer fails with `APIError`, the operation does not raise:
it returns `APIResponse(success=False, error=str(e))` — success false,
error set to the failure message, data and raw body absent. For the
two-step operations the boundary holds for a failure of either step
(for the second step, once the first step's response was successfully
read). -/
theorem provider_contract_failure_boundary (e : APIError) :
    failureResponse e =
      { success := false, data := none, error := some e.toMessage, rawResponse := none } ∧
    paddle_create_transaction (.error e) = some (failureResponse e) ∧
    (∀ o2, paddle_create_plan (.error e) o2 = some (failureResponse e)) ∧
    (∀ product pd pid, jKey product "data" = some pd → jKey pd "id" = some pid →
        paddle_create_plan (.ok product) (.error e) = some (failureResponse e)) ∧
    paddle_get_transaction_invoice (.error e) = some (failureResponse e) ∧
    paddle_get_subscription_details (.error e) = some (failureResponse e) ∧
    (∀ sid, paddle_end_subscription sid (.error e) = some (failureResponse e)) ∧
    paddle_create_customer (.error e) = some (failureResponse e) ∧
    (∀ oSub, rz_create_transaction (.error e) oSub = some (failureResponse e)) ∧
    (∀ c cid, pyGet c "id" = some cid →
        rz_create_transaction (.ok c) (.error e) = some (failureResponse e)) ∧
    rz_create_plan (.error e) = some (failureResponse e) ∧
    rz_get_transaction_invoice (.error e) = some (failureResponse e) ∧
    rz_get_subscription_details (.error e) = some (failureResponse e) ∧
    (∀ sid, rz_end_subscription sid (.error e) = some (failureResponse e)) ∧
    rz_create_customer (.error e) = some (failureResponse e) := by
  refine ⟨rfl, rfl, fun o2 => rfl, ?_, rfl, rfl, fun sid => rfl, rfl,
    fun oSub => rfl, ?_, rfl, rfl, rfl, fun sid => rfl, rfl⟩
  · intro product pd pid h1 h2
    simp [paddle_create_plan, h1, h2]
  · intro c cid h
    simp [rz_create_transaction, rz_create_customer, h, successResponse, failureResponse]

/-- Witness for C1: concrete failures of the second step of the
two-step operations. -/
theorem provider_contract_failure_boundary_witness :
    paddle_create_plan (.ok (.obj [("data", .obj [("id", .str "pro_1")])]))
        (.error (.requestError "boom")) =
      some (failureResponse (.requestError "boom")) ∧
    rz_create_transaction (.ok (.obj [("id", .str "cust_1")]))
        (.error (.requestError "boom")) =
      some (failureResponse (.requestError "boom")) := by
  have h := provider_contract_failure_boundary (.requestError "boom")
  exact ⟨h.2.2.2.1 (.obj [("data", .obj [("id", .str "pro_1")])])
            (.obj [("id", .str "pro_1")]) (.str "pro_1") rfl rfl,
         h.2.2.2.2.2.2.2.2.2.1 (.obj [("id", .str "cust_1")]) (.str "cust_1") rfl⟩

/-! ## Transport policy lemmas -/

lemma transportSleeps_self (oracle : Nat → AttemptResult) (backoff : ℚ) (k : Nat) :
    transportSleeps oracle backoff k k = [] := by
  simp [transportSleeps]

lemma transportSleeps_cons (oracle : Nat → AttemptResult) (backoff : ℚ) (lo k : Nat)
    (h : lo < k) :
    transportSleeps oracle backoff lo k =
      (match oracle lo with
       | .requestError _ => [backoff * 2 ^ (lo - 1)]
       | .ok _ => []) ++ transportSleeps oracle backoff (lo + 1) k := by
  unfold transportSleeps
  have h1 : k - lo = (k - (lo + 1)) + 1 := by omega
  rw [h1, List.range'_succ]
  cases horacle : oracle lo <;> simp [horacle, List.filterMap_cons]

lemma makeRequestGo_succeeds_aux (oracle : Nat → AttemptResult) (retries : Nat) (backoff : ℚ)
    (k : Nat) (r : HttpResponse) (j : JValue)
    (hk : k ≤ retries)
    (hor : oracle k = .ok r)
    (hst : isSuccessStatus r.statusCode = true)
    (hj : r.decoded = some j) :
    ∀ fuel attempt, fuel = retries - attempt → attempt < k →
      (∀ i, attempt < i → i < k → attemptFails (oracle i) = true) →
      makeRequestGo oracle retries backoff attempt fuel =
        (.returned j, k, transportSleeps oracle backoff (attempt + 1) k) := by
  intro fuel
  induction fuel with
  | zero =>
    intro attempt hfe hlt _
    exact absurd hfe (by omega)
  | succ f ih =>
    intro attempt hfe hlt hfail
    by_cases hak : attempt + 1 = k
    · subst hak
      simp only [makeRequestGo]
      rw [hor]
      simp [hst, hj, transportSleeps_self]
    · have hlt2 : attempt + 1 < k := by omega
      have hf2 : f = retries - (attempt + 1) := by omega
      have hfa := hfail (attempt + 1) (by omega) hlt2
      have hrec := ih (attempt + 1) hf2 hlt2 (fun i hi1 hi2 => hfail i (by omega) hi2)
      simp only [makeRequestGo]
      cases horA : oracle (attempt + 1) with
      | ok ra =>
        have hstA : isSuccessStatus ra.statusCode = false := by
          rw [horA] at hfa
          simpa [attemptFails] using hfa
        have hnle : ¬ retries ≤ attempt + 1 := by omega
        rw [transportSleeps_cons oracle backoff (attempt + 1) k hlt2, horA]
        simp [hstA, hnle, hrec]
      | requestError m =>
        have hlt3 : attempt + 1 < retries := by omega
        rw [transportSleeps_cons oracle backoff (attempt + 1) k hlt2, horA]
        simp [hlt3, hrec]

lemma makeRequestGo_allfail_aux (oracle : Nat → AttemptResult) (retries : Nat) (backoff : ℚ)
    (hfail : ∀ i, 1 ≤ i → i ≤ retries → attemptFails (oracle i) = true) :
    ∀ fuel attempt, fuel = retries - attempt → attempt < retries →
      (makeRequestGo oracle retries backoff attempt fuel).1 =
        lastAttemptError (oracle retries) ∧
      (makeRequestGo oracle retries backoff attempt fuel).2.1 = retries := by
  intro fuel
  induction fuel with
  | zero =>
    intro attempt hfe hlt
    exact absurd hfe (by omega)
  | succ f ih =>
    intro attempt hfe hlt
    by_cases hend : attempt + 1 = retries
    · have hfa := hfail (attempt + 1) (by omega) (by omega)
      simp only [makeRequestGo]
      cases horA : oracle (attempt + 1) with
      | ok ra =>
        have hstA : isSuccessStatus ra.statusCode = false := by
          rw [horA] at hfa
          simpa [attemptFails] using hfa
        have hle : retries ≤ attempt + 1 := by omega
        rw [hend] at horA
        simp [hstA, hle, lastAttemptError, horA, hend]
      | requestError m =>
        have hnlt : ¬ (attempt + 1 < retries) := by omega
        rw [hend] at horA
        simp [hnlt, lastAttemptError, horA, hend]
    · have hlt2 : attempt + 1 < retries := by omega
      have hf2 : f = retries - (attempt + 1) := by omega
      have hfa := hfail (attempt + 1) (by omega) (by omega)
      have hrec := ih (attempt + 1) hf2 hlt2
      simp only [makeRequestGo]
      cases horA : oracle (attempt + 1) with
      | ok ra =>
        have hstA : isSuccessStatus ra.statusCode = false := by
          rw [horA] at hfa
          simpa [attemptFails] using hfa
        have hnle : ¬ retries ≤ attempt + 1 := by omega
        simp [hstA, hnle, hrec.1, hrec.2]
      | requestError m =>
        simp [hlt2, hrec.1, hrec.2]

/-- Claim C2: whenever `_make_request` succeeds on attempt k ≤ retries
after k−1 failed attempts, the sleeps performed are exactly one sleep of
`backoff_factor * 2^(i-1)` after each transport-level failure at attempt
i < k and no sleep after any HTTP-status failure (this is what
`transportSleeps` enumerates, in attempt order), and the successful
attempt's decoded body is returned with final attempt counter k. -/
theorem retry_backoff_schedule (oracle : Nat → AttemptResult) (retries : Nat) (backoff : ℚ)
    (k : Nat) (r : HttpResponse) (j : JValue)
    (hk1 : 1 ≤ k) (hk : k ≤ retries)
    (hfail : ∀ i, 1 ≤ i → i < k → attemptFails (oracle i) = true)
    (hor : oracle k = .ok r)
    (hst : isSuccessStatus r.statusCode = true)
    (hj : r.decoded = some j) :
    makeRequest oracle retries backoff =
      (.returned j, k, transportSleeps oracle backoff 1 k) := by
  have h := makeRequestGo_succeeds_aux oracle retries backoff k r j hk hor hst hj
      retries 0 (by omega) (by omega) (fun i hi1 hi2 => hfail i (by omega) hi2)
  simpa [makeRequest] using h

/-- A concrete attempt schedule for the C2 witness: transport failure on
attempt 1, HTTP 500 on attempt 2, success on attempt 3. -/
def wOracleC2 : Nat → AttemptResult := fun i =>
  if i = 1 then .requestError "connection timed out"
  else if i = 2 then .ok ⟨500, "internal server error", none⟩
  else .ok ⟨200, "ok", some (.obj [("ok", .bool true)])⟩

/-- Witness for C2: three attempts, backoff factor 1; the transport
failure on attempt 1 sleeps 1 * 2^0 = 1 second and the HTTP failure on
attempt 2 sleeps nothing. -/
theorem retry_backoff_schedule_witness :
    makeRequest wOracleC2 3 1 =
      (.returned (.obj [("ok", .bool true)]), 3, transportSleeps wOracleC2 1 1 3) ∧
    transportSleeps wOracleC2 1 1 3 = [1] := by
  constructor
  · exact retry_backoff_schedule wOracleC2 3 1 3 ⟨200, "ok", some (.obj [("ok", .bool true)])⟩
      (.obj [("ok", .bool true)]) (by omega) (by omega)
      (fun i h1 h2 => by interval_cases i <;> rfl) rfl rfl rfl
  · norm_num [transportSleeps, wOracleC2, List.range', List.filterMap_cons]

/-- Claim C6: when every one of the `retries` attempts fails, exactly
`retries` attempts are made and the surfaced `APIError` carries the last
attempt's status code and response body for an HTTP-status failure, or
the last attempt's exception message for a transport failure. -/
theorem all_attempts_fail_surfaces_last (oracle : Nat → AttemptResult) (retries : Nat)
    (backoff : ℚ) (hre : 1 ≤ retries)
    (hfail : ∀ i, 1 ≤ i → i ≤ retries → attemptFails (oracle i) = true) :
    ((makeRequest oracle retries backoff).1 = lastAttemptError (oracle retries) ∧
     (makeRequest oracle retries backoff).2.1 = retries) ∧
    (∀ sc txt dec, oracle retries = .ok ⟨sc, txt, dec⟩ →
        lastAttemptError (oracle retries) =
          .apiError (.statusError "API call failed after retries" sc txt)) ∧
    (∀ m, oracle retries = .requestError m →
        lastAttemptError (oracle retries) =
          .apiError (.requestError ("Request error after retries: " ++ m))) := by
  refine ⟨?_, ?_, ?_⟩
  · have h := makeRequestGo_allfail_aux oracle retries backoff hfail retries 0
        (by omega) (by omega)
    simpa [makeRequest] using h
  · intro sc txt dec h
    rw [h]
    rfl
  · intro m h
    rw [h]
    rfl

/-- A concrete attempt schedule for the C6 witness: every attempt is an
HTTP 503. -/
def wOracleC6 : Nat → AttemptResult := fun _ => .ok ⟨503, "service unavailable", none⟩

/-- Witness for C6: two attempts, both failing with HTTP 503; the
surfaced error carries the last attempt's status and body and two
attempts were made. -/
theorem all_attempts_fail_surfaces_last_witness :
    (makeRequest wOracleC6 2 1).1 = lastAttemptError (wOracleC6 2) ∧
    (makeRequest wOracleC6 2 1).2.1 = 2 ∧
    lastAttemptError (wOracleC6 2) =
      .apiError (.statusError "API call failed after retries" 503 "service unavailable") := by
  have h := all_attempts_fail_surfaces_last wOracleC6 2 1 (by omega)
      (fun i h1 h2 => by interval_cases i <;> rfl)
  exact ⟨h.1.1, h.1.2, h.2.1 503 "service unavailable" none rfl⟩
